import Mathlib

/-!
# observability-e2e-test: the wait loops and the MCO deployment helpers

A shallow embedding of

* the convergence poller (`Poll`) that the wait loops of
  `pkg/tests/observability_install_test.go` and
  `pkg/tests/observability_reconcile_test.go` rely on,
* the probe funcs and the timeout and interval arguments of those wait loops,
* `CheckMCOComponentsInBaiscMode`, `CreateObjSecret`, `UninstallMCO`,
  `ModifyMCOAvailabilityConfig` and `ModifyMCORetentionResolutionRaw` of
  `utils/mco_deploy.go`.

Durations are natural numbers of nanoseconds, the unit of Go's `time.Duration`.
A Go `error` is `Option String`: `none` is `nil`, `some msg` an error with that
message.
-/

namespace ObservabilityE2E

/-! ## Data model of the poller -/

/-- Result of one probe call: `ProbeResult` of the interface section. -/
inductive ProbeResult where
  | Success
  | RetryableFailure (reason : String)
  | FatalFailure (reason : String)
  deriving DecidableEq, Repr

/-- Poll policy, `{ timeout: Duration, interval: Duration }`. -/
structure PollPolicy where
  timeout : Nat
  interval : Nat
  deriving DecidableEq, Repr

/-- Terminal outcome of one poll. -/
inductive Outcome where
  | Converged
  | TimedOut (lastReason : String)
  | Aborted (reason : String)
  deriving DecidableEq, Repr

/-- A probe, seen over one poll: its `n`-th call (counted from 0) gives a result
and blocks for some time. The poller holds no state of the probe; what the
external system answers on each call is the probe's business. -/
abbrev Probe := Nat → ProbeResult × Nat

/-- One poll as an observer sees it: the outcome, how many times the probe was
invoked, how many interval sleeps were performed, and the time elapsed since
`t0` when the outcome was produced. -/
structure PollRun where
  outcome : Outcome
  calls : Nat
  sleeps : Nat
  elapsed : Nat
  deriving DecidableEq, Repr

/-- "Policy fields must be positive durations". -/
def PollPolicy.valid (policy : PollPolicy) : Prop :=
  0 < policy.timeout ∧ 0 < policy.interval

instance (policy : PollPolicy) : Decidable policy.valid := by
  unfold PollPolicy.valid; infer_instance

/-- The invariant of the data model: "`interval > 0`, `timeout > 0`, `timeout`
should exceed `interval`". -/
def PollPolicy.invariant (policy : PollPolicy) : Prop :=
  0 < policy.interval ∧ 0 < policy.timeout ∧ policy.interval < policy.timeout

instance (policy : PollPolicy) : Decidable policy.invariant := by
  unfold PollPolicy.invariant; infer_instance

/-! ## The poller -/

/-- Modelled from the spec: step 2 of the behaviour of `Poll` (the poller is the
assertion library's `Eventually`, which is not part of the source tree).
`calls`, `sleeps` are the counts so far and `now` the time elapsed since `t0`.
Each round invokes the probe once; Success ends with `Converged`, a fatal
failure with `Aborted reason`; a retryable failure records the reason and ends
with `TimedOut` when the elapsed time plus one more interval would exceed the
timeout, and otherwise sleeps for the interval and repeats. `fuel` bounds the
number of rounds; `none` means the bound was too small. -/
def pollLoop (probe : Probe) (policy : PollPolicy) :
    (fuel calls sleeps now : Nat) → Option PollRun
  | 0, _, _, _ => none
  | fuel + 1, calls, sleeps, now =>
    let elapsed := now + (probe calls).2
    match (probe calls).1 with
    | ProbeResult.Success =>
        some { outcome := Outcome.Converged, calls := calls + 1, sleeps := sleeps,
               elapsed := elapsed }
    | ProbeResult.FatalFailure reason =>
        some { outcome := Outcome.Aborted reason, calls := calls + 1, sleeps := sleeps,
               elapsed := elapsed }
    | ProbeResult.RetryableFailure reason =>
        if elapsed + policy.interval > policy.timeout then
          some { outcome := Outcome.TimedOut reason, calls := calls + 1, sleeps := sleeps,
                 elapsed := elapsed }
        else
          pollLoop probe policy fuel (calls + 1) (sleeps + 1) (elapsed + policy.interval)

/-- Reason reported for a policy whose fields are not positive. The spec fixes
the class of the report (fatal, before any probing), not its text. -/
def invalidPolicyReason : String := "invalid policy"

/-- Modelled from the spec: `Poll(probe, policy) -> Outcome` of the Convergence
Poller. A policy with a field that is not positive is a configuration error
"reported immediately (Fatal), not a timeout", "before any probing begins".
Otherwise `t0` is the start of the poll (time 0) and the loop runs; every round
but the last sleeps for `interval` within `timeout`, so `timeout / interval + 1`
rounds are always enough (`Poll_total`). The optional external cancellation
signal of the concurrency section is not an input of the contract and is left
out. -/
def Poll (probe : Probe) (policy : PollPolicy) : Option PollRun :=
  if policy.timeout = 0 ∨ policy.interval = 0 then
    some { outcome := Outcome.Aborted invalidPolicyReason, calls := 0, sleeps := 0,
           elapsed := 0 }
  else
    pollLoop probe policy (policy.timeout / policy.interval + 1) 0 0 0

/-! ## The wait loops of the tests -/

/-- Go's `time.Second`, in nanoseconds. -/
def Second : Nat := 1000000000

/-- Go's `time.Minute`. -/
def Minute : Nat := 60 * Second

/-- `EventuallyTimeoutMinute time.Duration = 60 * time.Second`
(observability_reconcile_test.go, line 29). -/
def EventuallyTimeoutMinute : Nat := 60 * Second

/-- `EventuallyIntervalSecond time.Duration = 1 * time.Second`
(observability_reconcile_test.go, line 30). -/
def EventuallyIntervalSecond : Nat := 1 * Second

/-- Largest value of an `int64`, the representation of `time.Duration`. -/
def maxDuration : Nat := 2 ^ 63 - 1

/-- The (timeout, interval) arguments of the waits of `installMCO` that pass them
explicitly, in source order (observability_install_test.go, lines 84, 115, 126,
139, 161). The waits of lines 49, 93, 152 and 171 pass none. -/
def installWaits : List PollPolicy :=
  [ { timeout := EventuallyTimeoutMinute * 20, interval := EventuallyIntervalSecond * 5 },
    { timeout := EventuallyTimeoutMinute * 25, interval := EventuallyIntervalSecond * 5 },
    { timeout := EventuallyTimeoutMinute * 25, interval := EventuallyIntervalSecond * 5 },
    { timeout := EventuallyTimeoutMinute * 10, interval := EventuallyIntervalSecond * 5 },
    { timeout := EventuallyTimeoutMinute * 5, interval := EventuallyIntervalSecond * 5 } ]

/-- The (timeout, interval) arguments of the waits of the reconcile tests, in
source order (observability_reconcile_test.go, lines 70, 80, 90, 101, 112, 123,
133, 141, 149, 158, 182, 192, 201). -/
def reconcileWaits : List PollPolicy :=
  [ { timeout := EventuallyTimeoutMinute * 5, interval := EventuallyIntervalSecond * 5 },
    { timeout := EventuallyTimeoutMinute * 10, interval := EventuallyIntervalSecond * 5 },
    { timeout := EventuallyTimeoutMinute * 10, interval := EventuallyIntervalSecond * 5 },
    { timeout := EventuallyTimeoutMinute * 5, interval := EventuallyIntervalSecond * 5 },
    { timeout := EventuallyTimeoutMinute * 5, interval := EventuallyIntervalSecond * 5 },
    { timeout := EventuallyTimeoutMinute * 5, interval := EventuallyIntervalSecond * 5 },
    { timeout := EventuallyTimeoutMinute * 5, interval := EventuallyIntervalSecond * 5 },
    { timeout := EventuallyTimeoutMinute * 5, interval := EventuallyIntervalSecond * 5 },
    { timeout := EventuallyTimeoutMinute * 5, interval := EventuallyIntervalSecond * 5 },
    { timeout := EventuallyTimeoutMinute * 10, interval := EventuallyIntervalSecond * 5 },
    { timeout := EventuallyTimeoutMinute * 5, interval := EventuallyIntervalSecond * 5 },
    { timeout := EventuallyTimeoutMinute * 10, interval := EventuallyIntervalSecond * 5 },
    { timeout := EventuallyTimeoutMinute * 15, interval := EventuallyIntervalSecond * 5 } ]

/-- The timeout of the wait "Checking the thanos-receive storage capacity is
updated" of `installMCO` (observability_install_test.go, line 115). -/
def thanosReceiveResizeTimeout : Nat := EventuallyTimeoutMinute * 25

/-- The `terminationGracePeriodSeconds` of the thanos-receive pod named by the
comment of line 114: 900 s. -/
def thanosReceiveTerminationGracePeriod : Nat := 900 * Second

/-- How a Go call ends: it returns a value or it panics. -/
inductive GoResult (α : Type) where
  | returned (value : α)
  | panicked (msg : String)
  deriving DecidableEq, Repr

/-- A probe func as a wait loop polls it: the error value its `n`-th call returns
(`none` is `nil`) and the time the call takes. -/
abbrev ProbeFunc := Nat → Option String × Nat

/-- Modelled from the spec: how `Eventually(f, ...).Should(Succeed())` reads the
error value of a probe func (the assertion library is not part of the source
tree): `nil` is Success, and every error is a retryable failure, "treating
'not yet' and 'real error' uniformly as retryable failures until a deadline". -/
def succeedProbe (f : ProbeFunc) : Probe := fun n =>
  match (f n).1 with
  | none => (ProbeResult.Success, (f n).2)
  | some err => (ProbeResult.RetryableFailure err, (f n).2)

/-- Modelled from the spec: the wait `Eventually(f, timeout, interval)
.Should(Succeed())` of the tests, as a poll of `f` under that policy. -/
def Eventually (f : ProbeFunc) (timeout interval : Nat) : Option PollRun :=
  Poll (succeedProbe f) { timeout := timeout, interval := interval }

/-- A container of a pod template, reduced to its `Args`. -/
structure Container where
  Args : List String
  deriving DecidableEq, Repr

/-- A `StatefulSet`, reduced to what the code reads:
`Spec.Template.Spec.Containers` and `Status.ReadyReplicas` (an `int32`). -/
structure StatefulSet where
  Containers : List Container
  ReadyReplicas : Int
  deriving DecidableEq, Repr

/-- A `Deployment`, reduced to `Status.ReadyReplicas` (an `int32`). -/
structure Deployment where
  ReadyReplicas : Int
  deriving DecidableEq, Repr

/-- The probe func of "Waiting for MCO retentionResolutionRaw filed to take
effect" (observability_reconcile_test.go, lines 57-70), for the answer `get` of
`StatefulSets(MCO_NAMESPACE).Get(MCO_CR_NAME + "-thanos-compact")`: the error of
Get is returned as it is; otherwise the args of `Containers[0]` are searched for
`--retention.resolution-raw=3d`. -/
def retentionResolutionRawProbe (get : Except String StatefulSet) :
    GoResult (Option String) :=
  match get with
  | Except.error err => GoResult.returned (some err)
  | Except.ok compact =>
    match compact.Containers with
    | [] => GoResult.panicked "runtime error: index out of range [0] with length 0"
    | c0 :: _ =>
      if c0.Args.any (fun arg => arg == "--retention.resolution-raw=3d") then
        GoResult.returned none
      else
        GoResult.returned (some "Failed to find modified retention field")

/-- An `unstructured.Unstructured`: the top-level fields of the object, with
field values of some type `V`. -/
structure Unstructured (V : Type) where
  Object : List (String × V)

/-- Line 83 of observability_install_test.go: the error built from
`instance.Object["status"]`. The field access goes through the pointer
`mcoInstance`, so a `nil` pointer panics; `sprintV` is the `%v` verb of `fmt`
(`none` is a missing key, the `nil` interface value). -/
def mcoNotReadyError {V : Type} (sprintV : Option V → String)
    (mcoInstance : Option (Unstructured V)) : GoResult (Option String) :=
  match mcoInstance with
  | none =>
    GoResult.panicked "runtime error: invalid memory address or nil pointer dereference"
  | some u =>
    GoResult.returned (some
      ("MCO componnets cannot be running in 20 minutes. check the MCO CR status for the details: "
        ++ sprintV (u.Object.lookup "status")))

/-- The probe func of the first "Waiting for MCO ready status" of `installMCO`
(observability_install_test.go, lines 75-84), for the answer
`(mcoInstance, err)` of the dynamic client's Get; `mcoInstance` is a pointer
(`none` is `nil`). `StatusContainsTypeEqualTo` is the helper of package utils,
which is outside the source tree and taken as a parameter. -/
def waitingForMCOReadyStatusProbe {V : Type}
    (StatusContainsTypeEqualTo : Option (Unstructured V) → String → Bool)
    (sprintV : Option V → String)
    (mcoInstance : Option (Unstructured V)) (err : Option String) :
    GoResult (Option String) :=
  match err with
  | none =>
    if StatusContainsTypeEqualTo mcoInstance "Ready" then
      GoResult.returned none
    else
      mcoNotReadyError sprintV mcoInstance
  | some _ => mcoNotReadyError sprintV mcoInstance

/-! ## utils/mco_deploy.go -/

/-- The constant `MCO_NAMESPACE`. -/
def MCO_NAMESPACE : String := "open-cluster-management-observability"

/-- The constant `OBJ_SECRET_NAME`. -/
def OBJ_SECRET_NAME : String := "thanos-object-storage"

/-- `expectedDeploymentNames` of `CheckMCOComponentsInBaiscMode` (lines 72-80). -/
def expectedDeploymentNames : List String :=
  [ "grafana",
    "observability-observatorium-observatorium-api",
    "observability-observatorium-thanos-query",
    "observability-observatorium-thanos-query-frontend",
    "observability-observatorium-thanos-receive-controller",
    "observatorium-operator",
    "rbac-query-proxy" ]

/-- `expectedStatefulSetNames` of `CheckMCOComponentsInBaiscMode` (lines 97-106). -/
def expectedStatefulSetNames : List String :=
  [ "alertmanager",
    "observability-observatorium-thanos-compact",
    "observability-observatorium-thanos-receive-default",
    "observability-observatorium-thanos-rule",
    "observability-observatorium-thanos-store-memcached",
    "observability-observatorium-thanos-store-shard-0",
    "observability-observatorium-thanos-store-shard-1",
    "observability-observatorium-thanos-store-shard-2" ]

/-- `fmt.Errorf("Expect 1 but got %d ready replicas", n)`, as its message. -/
def expectOneError (n : Int) : String :=
  "Expect 1 but got " ++ toString n ++ " ready replicas"

/-- The loop over the deployments (lines 82-94): `some err` is a return from
inside the loop, `none` means the loop ran to its end. `get` is
`deployments.Get`. -/
def checkDeployments (get : String → Except String Deployment) :
    List String → Option String
  | [] => none
  | deploymentName :: rest =>
    match get deploymentName with
    | Except.error err => some err
    | Except.ok deployment =>
      if deployment.ReadyReplicas ≠ 1 then
        some (expectOneError deployment.ReadyReplicas)
      else
        checkDeployments get rest

/-- The loop over the statefulsets (lines 108-120). -/
def checkStatefulSets (get : String → Except String StatefulSet) :
    List String → Option String
  | [] => none
  | statefulsetName :: rest =>
    match get statefulsetName with
    | Except.error err => some err
    | Except.ok statefulset =>
      if statefulset.ReadyReplicas ≠ 1 then
        some (expectOneError statefulset.ReadyReplicas)
      else
        checkStatefulSets get rest

/-- `CheckMCOComponentsInBaiscMode` (lines 68-123); `deployments` and
`statefulsets` are the Get calls of the two typed clients of `MCO_NAMESPACE`. -/
def CheckMCOComponentsInBaiscMode (deployments : String → Except String Deployment)
    (statefulsets : String → Except String StatefulSet) : Option String :=
  match checkDeployments deployments expectedDeploymentNames with
  | some err => some err
  | none =>
    match checkStatefulSets statefulsets expectedStatefulSetNames with
    | some err => some err
    | none => none

/-- A workload that `CheckMCOComponentsInBaiscMode` looks at. -/
inductive Workload where
  | deployment (name : String)
  | statefulset (name : String)
  deriving DecidableEq, Repr

/-- The workloads in list order: all deployments before all statefulsets. -/
def workloadsInOrder : List Workload :=
  expectedDeploymentNames.map Workload.deployment ++
    expectedStatefulSetNames.map Workload.statefulset

/-- What retrieving a workload gives: the retrieval error, or the number of
ready replicas it reports. -/
def readyReplicasOf (deployments : String → Except String Deployment)
    (statefulsets : String → Except String StatefulSet) : Workload → Except String Int
  | Workload.deployment name => (deployments name).map Deployment.ReadyReplicas
  | Workload.statefulset name => (statefulsets name).map StatefulSet.ReadyReplicas

/-- The failure of a workload, in the words of the description of
`CheckMCOComponentsInBaiscMode`: a retrieval error unchanged, a wrong count `n`
as "Expect 1 but got n ready replicas", and none for exactly 1 ready replica. -/
def workloadFailure : Except String Int → Option String
  | Except.error err => some err
  | Except.ok n => if n = 1 then none else some (expectOneError n)

/-- The error of the first failing workload of a list, if any. -/
def firstFailure (deployments : String → Except String Deployment)
    (statefulsets : String → Except String StatefulSet) (ws : List Workload) :
    Option String :=
  ws.findSome? (fun w => workloadFailure (readyReplicasOf deployments statefulsets w))

/-- `os.Getenv`: the value of the variable, empty when it is unset. -/
def Getenv (env : String → Option String) (key : String) : String :=
  (env key).getD ""

/-- The manifest that `CreateObjSecret` renders with `fmt.Sprintf` (lines
212-232). -/
def objSecretManifest (bucket region accessKey secretKey : String) : String :=
  "apiVersion: v1\nkind: Secret\nmetadata:\n  name: " ++ OBJ_SECRET_NAME ++
  "\n  namespace: " ++ MCO_NAMESPACE ++
  "\nstringData:\n  thanos.yaml: |\n    type: s3\n    config:\n      bucket: " ++ bucket ++
  "\n      endpoint: s3." ++ region ++
  ".amazonaws.com\n      insecure: false\n      access_key: " ++ accessKey ++
  "\n      secret_key: " ++ secretKey ++ "\ntype: Opaque"

/-- What a call of `CreateObjSecret` does: the error it returns and the
manifests it passed to `Apply`, in call order. -/
structure CreateObjSecretRun where
  err : Option String
  applied : List String
  deriving DecidableEq, Repr

/-- `CreateObjSecret` (lines 190-235). `env` is the process environment and
`Apply` the helper of package utils (outside the source tree), taken with the
three connection arguments and the manifest. -/
def CreateObjSecret (env : String → Option String)
    (Apply : String → String → String → String → Option String)
    (url kubeconfig context : String) : CreateObjSecretRun :=
  let bucket := Getenv env "BUCKET"
  if bucket = "" then
    { err := some "failed to get s3 BUCKET env", applied := [] }
  else
    let region := Getenv env "REGION"
    if region = "" then
      { err := some "failed to get s3 REGION env", applied := [] }
    else
      let accessKey := Getenv env "ACCESSKEY"
      if accessKey = "" then
        { err := some "failed to get aws ACCESSKEY env", applied := [] }
      else
        let secretKey := Getenv env "SECRETKEY"
        if secretKey = "" then
          { err := some "failed to get aws SECRETKEY env", applied := [] }
        else
          let objSecret := objSecretManifest bucket region accessKey secretKey
          { err := Apply url kubeconfig context objSecret, applied := [objSecret] }

/-- The four "failed to get ... env" errors of `CreateObjSecret`, with the
variable each one names, in the order of the checks. -/
def envErrors : List (String × String) :=
  [ ("BUCKET", "failed to get s3 BUCKET env"),
    ("REGION", "failed to get s3 REGION env"),
    ("ACCESSKEY", "failed to get aws ACCESSKEY env"),
    ("SECRETKEY", "failed to get aws SECRETKEY env") ]

/-- The error that names the first variable of `envErrors` that is unset or
empty, if there is one. -/
def firstEmptyEnvError (env : String → Option String) : Option String :=
  (envErrors.find? (fun p => Getenv env p.1 == "")).map Prod.snd

/-- The time the `k` probe calls from call number `calls` on block for. -/
def durationsFrom (probe : Probe) : (calls k : Nat) → Nat
  | _, 0 => 0
  | calls, k + 1 => (probe calls).2 + durationsFrom probe (calls + 1) k

/-! ## utils/mco_deploy.go: the MCO instance and its secrets -/

/-- The constant `MCO_CR_NAME`. -/
def MCO_CR_NAME : String := "observability"

/-- The constant `MCO_PULL_SECRET_NAME`. -/
def MCO_PULL_SECRET_NAME : String := "multiclusterhub-operator-pull-secret"

/-- The constant `MCO_GROUP`. -/
def MCO_GROUP : String := "observability.open-cluster-management.io"

/-- A `schema.GroupVersionResource`. -/
structure GroupVersionResource where
  Group : String
  Version : String
  Resource : String
  deriving DecidableEq, Repr

/-- `NewMCOGVR` (lines 38-43). -/
def NewMCOGVR : GroupVersionResource :=
  { Group := MCO_GROUP, Version := "v1beta1", Resource := "multiclusterobservabilities" }

/-- A field value of an unstructured object: an `interface{}` as the decoder of
the client produces it. A map is held as the list of its bindings and read with
`List.lookup`; a map that is present is never the nil map. -/
inductive Value where
  | null
  | bool (b : Bool)
  | number (literal : String)
  | str (s : String)
  | list (items : List Value)
  | map (fields : List (String × Value))

/-- The Go map assignment `m[key] = value`, on the bindings of `m`: the binding
of `key` is replaced, or added when there is none. -/
def mapSet {V : Type} (key : String) (value : V) : List (String × V) → List (String × V)
  | [] => [(key, value)]
  | (k, v) :: rest =>
    if k = key then (key, value) :: rest else (k, v) :: mapSet key value rest

/-- The type assertion `x.(map[string]interface{})` on a field that was read
from a map (`none` is a missing key): it panics unless the field is a map. -/
def assertMap : Option Value → GoResult (List (String × Value))
  | some (Value.map fields) => GoResult.returned fields
  | none =>
    GoResult.panicked
      "interface conversion: interface {} is nil, not map[string]interface {}"
  | some _ =>
    GoResult.panicked "interface conversion: interface {} is not map[string]interface {}"

/-- The calls the functions below make on the cluster, through the dynamic
client (`Get`, `Update`, `Delete` on a resource) and through the typed client
(`Secrets(ns).Delete`). Each call answers in the state `σ` of the cluster it
finds and leaves a state behind. -/
structure Cluster (σ : Type) where
  Get : GroupVersionResource → String → σ → Except String (Unstructured Value) × σ
  Update : GroupVersionResource → Unstructured Value → σ → Option String × σ
  Delete : GroupVersionResource → String → σ → Option String × σ
  DeleteSecret : String → String → σ → Option String × σ

/-- `ModifyMCOAvailabilityConfig` (lines 52-66). `spec` aliases the map held in
`mco.Object["spec"]`, so the assignment of line 60 changes the object that line
61 passes to Update. -/
def ModifyMCOAvailabilityConfig {σ : Type} (c : Cluster σ) (s : σ) :
    GoResult (Option String) × σ :=
  match c.Get NewMCOGVR MCO_CR_NAME s with
  | (Except.error getErr, s1) => (GoResult.returned (some getErr), s1)
  | (Except.ok mco, s1) =>
    match assertMap (mco.Object.lookup "spec") with
    | GoResult.panicked msg => (GoResult.panicked msg, s1)
    | GoResult.returned spec =>
      let spec := mapSet "availabilityConfig" (Value.str "Basic") spec
      let mco : Unstructured Value := { Object := mapSet "spec" (Value.map spec) mco.Object }
      match c.Update NewMCOGVR mco s1 with
      | (some updateErr, s2) => (GoResult.returned (some updateErr), s2)
      | (none, s2) => (GoResult.returned none, s2)

/-- `ModifyMCORetentionResolutionRaw` (lines 125-139). -/
def ModifyMCORetentionResolutionRaw {σ : Type} (c : Cluster σ) (s : σ) :
    GoResult (Option String) × σ :=
  match c.Get NewMCOGVR MCO_CR_NAME s with
  | (Except.error getErr, s1) => (GoResult.returned (some getErr), s1)
  | (Except.ok mco, s1) =>
    match assertMap (mco.Object.lookup "spec") with
    | GoResult.panicked msg => (GoResult.panicked msg, s1)
    | GoResult.returned spec =>
      let spec := mapSet "retentionResolutionRaw" (Value.str "3d") spec
      let mco : Unstructured Value := { Object := mapSet "spec" (Value.map spec) mco.Object }
      match c.Update NewMCOGVR mco s1 with
      | (some updateErr, s2) => (GoResult.returned (some updateErr), s2)
      | (none, s2) => (GoResult.returned none, s2)

/-- `DeleteMCOInstance` (lines 157-160). -/
def DeleteMCOInstance {σ : Type} (c : Cluster σ) (s : σ) : Option String × σ :=
  c.Delete NewMCOGVR "observability" s

/-- `UninstallMCO` (lines 237-258). -/
def UninstallMCO {σ : Type} (c : Cluster σ) (s : σ) : Option String × σ :=
  match DeleteMCOInstance c s with
  | (some deleteMCOErr, s1) => (some deleteMCOErr, s1)
  | (none, s1) =>
    match c.DeleteSecret MCO_NAMESPACE MCO_PULL_SECRET_NAME s1 with
    | (some deletePullSecretErr, s2) => (some deletePullSecretErr, s2)
    | (none, s2) =>
      match c.DeleteSecret MCO_NAMESPACE OBJ_SECRET_NAME s2 with
      | (some deleteObjSecretErr, s3) => (some deleteObjSecretErr, s3)
      | (none, s3) => (none, s3)

/-- A call made on the cluster, with its arguments. -/
inductive Request where
  | get (gvr : GroupVersionResource) (name : String)
  | update (gvr : GroupVersionResource) (obj : Unstructured Value)
  | delete (gvr : GroupVersionResource) (name : String)
  | deleteSecret (ns name : String)

/-- The cluster `c` with a record of the calls made on it: every call answers as
on `c` and is appended to the record. -/
def recorded {σ : Type} (c : Cluster σ) : Cluster (List Request × σ) where
  Get gvr name st :=
    ((c.Get gvr name st.2).1, (st.1 ++ [Request.get gvr name], (c.Get gvr name st.2).2))
  Update gvr obj st :=
    ((c.Update gvr obj st.2).1, (st.1 ++ [Request.update gvr obj], (c.Update gvr obj st.2).2))
  Delete gvr name st :=
    ((c.Delete gvr name st.2).1, (st.1 ++ [Request.delete gvr name], (c.Delete gvr name st.2).2))
  DeleteSecret ns name st :=
    ((c.DeleteSecret ns name st.2).1,
      (st.1 ++ [Request.deleteSecret ns name], (c.DeleteSecret ns name st.2).2))

/-- "The object `updated` equals the object `fetched` except that `spec.key` is
`value`": both have a map as `spec`, the one of `updated` binds `key` to `value`
and agrees with the one of `fetched` on every other key, and the two objects
agree on every top-level field other than `spec`. -/
def equalsExceptSpecKey (key : String) (value : Value)
    (fetched updated : Unstructured Value) : Prop :=
  ∃ spec spec2, fetched.Object.lookup "spec" = some (Value.map spec) ∧
    updated.Object.lookup "spec" = some (Value.map spec2) ∧
    spec2.lookup key = some value ∧
    (∀ k, k ≠ key → spec2.lookup k = spec.lookup k) ∧
    (∀ k, k ≠ "spec" → updated.Object.lookup k = fetched.Object.lookup k)

/-! ## Concrete probes -/

/-- A probe func whose first call returns an error and whose later calls return
`nil`; every call returns at once. -/
def getFailsOnce : ProbeFunc := fun n =>
  if n = 0 then (some "connection refused", 0) else (none, 0)

/-- A thanos-compact statefulset whose first container carries the modified
retention argument. -/
def compactWith3d : StatefulSet :=
  { Containers := [{ Args := ["compact", "--retention.resolution-raw=3d"] }],
    ReadyReplicas := 1 }

/-- A probe that reports Retryable-Failure("x") on every call and returns at
once. -/
def alwaysX : Probe := fun _ => (ProbeResult.RetryableFailure "x", 0)

/-- A probe that reports Retryable-Failure("x") on every call, each call taking
20 ms. -/
def alwaysXTakingTime : Probe := fun _ => (ProbeResult.RetryableFailure "x", 20000000)

/-- A probe that fails twice and then succeeds, and whose first call blocks for
thirty seconds. -/
def slowThenSuccess : Probe := fun n =>
  if n = 0 then (ProbeResult.RetryableFailure "not yet", 30 * Second)
  else if n = 1 then (ProbeResult.RetryableFailure "not yet", 0)
  else (ProbeResult.Success, 0)

/-- A probe that reports a fatal failure on its first call. -/
def fatalAtOnce : Probe := fun _ => (ProbeResult.FatalFailure "namespace not found", 0)

/-- A probe that succeeds on its first call. -/
def readyAtOnce : Probe := fun _ => (ProbeResult.Success, 0)

/-- A probe that fails twice and then succeeds, each call returning at once. -/
def thirdTimeLucky : Probe := fun n =>
  if n < 2 then (ProbeResult.RetryableFailure "not yet", 0) else (ProbeResult.Success, 0)

/-- A cluster in which the grafana deployment has no ready replica yet and every
other deployment has one. -/
def grafanaNotReady : String → Except String Deployment := fun name =>
  if name = "grafana" then Except.ok { ReadyReplicas := 0 }
  else Except.ok { ReadyReplicas := 1 }

/-- A cluster in which no statefulset can be retrieved. -/
def statefulSetsUnreachable : String → Except String StatefulSet := fun _ =>
  Except.error "connection refused"

/-- An environment with the four variables of `CreateObjSecret`, `REGION` being
set to the empty string and `ACCESSKEY` unset. -/
def envWithoutRegion : String → Option String := fun key =>
  if key = "BUCKET" then some "obs-bucket"
  else if key = "REGION" then some ""
  else if key = "SECRETKEY" then some "secret"
  else none

/-- An `Apply` that succeeds. -/
def applyOk : String → String → String → String → Option String := fun _ _ _ _ => none

/-- A cluster, with nothing stored in it, in which the pull secret of the MCO
namespace does not exist and every other deletion succeeds. -/
def clusterWithoutPullSecret : Cluster Unit where
  Get _ _ st := (Except.error "not found", st)
  Update _ _ st := (none, st)
  Delete _ _ st := (none, st)
  DeleteSecret _ name st :=
    (if name = "multiclusterhub-operator-pull-secret" then
        some "secret multiclusterhub-operator-pull-secret not found"
      else none, st)

/-- A cluster whose state is the MCO instance it stores: Get returns it and
Update replaces it. -/
def clusterWithMCO : Cluster (Unstructured Value) where
  Get _ _ st := (Except.ok st, st)
  Update _ obj _ := (none, obj)
  Delete _ _ st := (none, st)
  DeleteSecret _ _ st := (none, st)

/-- The spec of `mcoInHighMode`. -/
def highModeSpec : List (String × Value) :=
  [ ("availabilityConfig", Value.str "High"),
    ("retentionResolutionRaw", Value.str "5d"),
    ("storageConfigObject", Value.map [("metricObjectStorage",
        Value.map [("name", Value.str "thanos-object-storage"),
                   ("key", Value.str "thanos.yaml")])]) ]

/-- An MCO instance as the cluster returns it. -/
def mcoInHighMode : Unstructured Value :=
  { Object :=
      [ ("apiVersion", Value.str "observability.open-cluster-management.io/v1beta1"),
        ("kind", Value.str "MultiClusterObservability"),
        ("metadata", Value.map [("name", Value.str "observability")]),
        ("spec", Value.map highModeSpec),
        ("status", Value.map []) ] }

/-! ## Lemmas on the poll loop -/

theorem pollLoop_mono (probe : Probe) (policy : PollPolicy) :
    ∀ (fuel calls sleeps now : Nat) (run : PollRun),
      pollLoop probe policy fuel calls sleeps now = some run →
      ∀ fuel2, fuel ≤ fuel2 → pollLoop probe policy fuel2 calls sleeps now = some run := by
  intro fuel
  induction fuel with
  | zero => intro calls sleeps now run h; simp [pollLoop] at h
  | succ fuel ih =>
    intro calls sleeps now run h fuel2 hle
    obtain ⟨m, rfl⟩ : ∃ m, fuel2 = m + 1 := ⟨fuel2 - 1, by omega⟩
    simp only [pollLoop] at h ⊢
    split <;> rename_i hres <;> simp only [hres] at h
    · exact h
    · exact h
    · split <;> rename_i hcond <;> simp only [hcond, if_true, if_false] at h
      · exact h
      · exact ih _ _ _ _ h m (by omega)

theorem pollLoop_total (probe : Probe) (policy : PollPolicy) (hi : 0 < policy.interval) :
    ∀ (fuel calls sleeps now : Nat),
      (policy.timeout - now) / policy.interval + 1 ≤ fuel →
      ∃ run, pollLoop probe policy fuel calls sleeps now = some run := by
  intro fuel
  induction fuel with
  | zero => intro calls sleeps now h; exact absurd h (Nat.not_succ_le_zero _)
  | succ fuel ih =>
    intro calls sleeps now h
    simp only [pollLoop]
    split
    · exact ⟨_, rfl⟩
    · exact ⟨_, rfl⟩
    · split
      · exact ⟨_, rfl⟩
      · rename_i hcond
        apply ih
        have hle : now + (probe calls).2 + policy.interval ≤ policy.timeout := by omega
        have h1 : (policy.timeout - (now + (probe calls).2 + policy.interval)) / policy.interval
            + 1 ≤ (policy.timeout - now) / policy.interval := by
          rw [Nat.le_div_iff_mul_le hi, Nat.add_mul, Nat.one_mul]
          have h2 := Nat.div_mul_le_self
            (policy.timeout - (now + (probe calls).2 + policy.interval)) policy.interval
          omega
        omega

/-- The poller always produces an outcome: the fuel `Poll` gives its loop is
never used up. -/
theorem Poll_total (probe : Probe) (policy : PollPolicy) :
    ∃ run, Poll probe policy = some run := by
  unfold Poll
  split
  · exact ⟨_, rfl⟩
  · rename_i h
    have hi : 0 < policy.interval := by omega
    exact pollLoop_total probe policy hi _ 0 0 0 (by simp)

/-- Under a valid policy a run of the loop from the start, with any fuel that
is enough for it, is the run of `Poll`. -/
theorem Poll_eq_of_pollLoop (probe : Probe) (policy : PollPolicy) (hv : policy.valid)
    (fuel : Nat) (run : PollRun) (h : pollLoop probe policy fuel 0 0 0 = some run) :
    Poll probe policy = some run := by
  obtain ⟨ht, hi⟩ := hv
  obtain ⟨run2, h2⟩ := pollLoop_total probe policy hi
    (policy.timeout / policy.interval + 1) 0 0 0 (by simp)
  have e1 := pollLoop_mono probe policy _ 0 0 0 run h
    (max fuel (policy.timeout / policy.interval + 1)) (le_max_left _ _)
  have e2 := pollLoop_mono probe policy _ 0 0 0 run2 h2
    (max fuel (policy.timeout / policy.interval + 1)) (le_max_right _ _)
  have e3 : run2 = run := by
    rw [e1] at e2; exact (Option.some.inj e2).symm
  unfold Poll
  rw [if_neg (by omega), h2, e3]

/-- Under a valid policy the run of `Poll` is a run of its loop from the start. -/
theorem pollLoop_of_Poll (probe : Probe) (policy : PollPolicy) (hv : policy.valid)
    (run : PollRun) (h : Poll probe policy = some run) :
    pollLoop probe policy (policy.timeout / policy.interval + 1) 0 0 0 = some run := by
  obtain ⟨ht, hi⟩ := hv
  unfold Poll at h
  rw [if_neg (by omega)] at h
  exact h

/-- Counting the rounds of a run: with `k` sleeps after the state
`(calls, sleeps, now)` the run makes `k + 1` calls, and when it sleeps at all,
the `k` intervals and the first `k` of these calls fit in the timeout. -/
theorem pollLoop_counts (probe : Probe) (policy : PollPolicy) :
    ∀ (fuel calls sleeps now : Nat) (run : PollRun),
      pollLoop probe policy fuel calls sleeps now = some run →
      ∃ k, run.sleeps = sleeps + k ∧ run.calls = calls + 1 + k ∧
        (k = 0 ∨ now + k * policy.interval + durationsFrom probe calls k ≤ policy.timeout) := by
  intro fuel
  induction fuel with
  | zero => intro calls sleeps now run h; simp [pollLoop] at h
  | succ fuel ih =>
    intro calls sleeps now run h
    simp only [pollLoop] at h
    split at h
    · exact ⟨0, by cases h; simp⟩
    · exact ⟨0, by cases h; simp⟩
    · split at h
      · exact ⟨0, by cases h; simp⟩
      · rename_i hcond
        obtain ⟨k, hs, hc, hk⟩ := ih _ _ _ run h
        refine ⟨k + 1, by omega, by omega, Or.inr ?_⟩
        rw [Nat.add_mul, Nat.one_mul]
        simp only [durationsFrom]
        rcases hk with hk | hk
        · subst hk; simp only [durationsFrom]; omega
        · omega

/-- A probe that never reports a fatal failure is never aborted by the loop. -/
theorem pollLoop_not_aborted (probe : Probe) (policy : PollPolicy)
    (hp : ∀ n reason, (probe n).1 ≠ ProbeResult.FatalFailure reason) :
    ∀ (fuel calls sleeps now : Nat) (run : PollRun),
      pollLoop probe policy fuel calls sleeps now = some run →
      run.outcome = Outcome.Converged ∨ ∃ last, run.outcome = Outcome.TimedOut last := by
  intro fuel
  induction fuel with
  | zero => intro calls sleeps now run h; simp [pollLoop] at h
  | succ fuel ih =>
    intro calls sleeps now run h
    simp only [pollLoop] at h
    split at h
    · cases h; exact Or.inl rfl
    · rename_i reason hres; exact absurd hres (hp _ _)
    · split at h
      · cases h; exact Or.inr ⟨_, rfl⟩
      · exact ih _ _ _ run h

/-- A probe that reports the same retryable failure on every call is timed out
with that reason. -/
theorem pollLoop_always_retryable (probe : Probe) (policy : PollPolicy) (reason : String)
    (hp : ∀ n, (probe n).1 = ProbeResult.RetryableFailure reason) :
    ∀ (fuel calls sleeps now : Nat) (run : PollRun),
      pollLoop probe policy fuel calls sleeps now = some run →
      run.outcome = Outcome.TimedOut reason := by
  intro fuel
  induction fuel with
  | zero => intro calls sleeps now run h; simp [pollLoop] at h
  | succ fuel ih =>
    intro calls sleeps now run h
    simp only [pollLoop, hp calls] at h
    split at h
    · cases h; rfl
    · exact ih _ _ _ run h

theorem succeedProbe_not_fatal (f : ProbeFunc) (n : Nat) (reason : String) :
    (succeedProbe f n).1 ≠ ProbeResult.FatalFailure reason := by
  unfold succeedProbe
  split <;> simp

/-! ## The poller: claims C1 to C5 -/

/-- C1, as stated, fails on the wait loops of the tests: the probe func of lines
57-70 returns the error of Get through its error value, the wait reads it as a
retryable failure, and a poll whose first call returns that error goes on: it
sleeps once, calls the probe func a second time and ends `Converged`, not
`Aborted` after one call. -/
theorem C1_get_error_is_retried :
    retentionResolutionRawProbe (Except.error "connection refused") =
        GoResult.returned (getFailsOnce 0).1 ∧
      retentionResolutionRawProbe (Except.ok compactWith3d) =
        GoResult.returned (getFailsOnce 1).1 ∧
      Eventually getFailsOnce (EventuallyTimeoutMinute * 5) (EventuallyIntervalSecond * 5) =
        some { outcome := Outcome.Converged, calls := 2, sleeps := 1,
               elapsed := EventuallyIntervalSecond * 5 } := by
  decide

/-- C1, amended: for every probe whose first result is classified Fatal-Failure
and every valid policy, `Poll` ends at once with `Aborted` carrying that reason,
after exactly one invocation and no sleep. The wait loops of the tests have no
such class: an error returned by the probe func on its first call (the error of
Get as well as "condition not yet met") is a retryable failure, and the poll
ends `Converged` after at least two calls or `TimedOut`, never `Aborted`. -/
theorem C1_fatal_aborts_errors_are_retried (probe : Probe) (f : ProbeFunc)
    (policy : PollPolicy) (reason err : String) (hv : policy.valid)
    (hfatal : (probe 0).1 = ProbeResult.FatalFailure reason)
    (herr : (f 0).1 = some err) :
    Poll probe policy =
        some { outcome := Outcome.Aborted reason, calls := 1, sleeps := 0,
               elapsed := (probe 0).2 } ∧
      ∃ run, Eventually f policy.timeout policy.interval = some run ∧
        ((run.outcome = Outcome.Converged ∧ 2 ≤ run.calls) ∨
          ∃ last, run.outcome = Outcome.TimedOut last) := by
  constructor
  · apply Poll_eq_of_pollLoop probe policy hv 1
    simp [pollLoop, hfatal]
  · obtain ⟨run, hrun⟩ := Poll_total (succeedProbe f) policy
    refine ⟨run, hrun, ?_⟩
    have hloop := pollLoop_of_Poll _ _ hv run hrun
    have hfirst : (succeedProbe f 0).1 = ProbeResult.RetryableFailure err := by
      simp [succeedProbe, herr]
    simp only [pollLoop, hfirst] at hloop
    split at hloop
    · cases hloop; exact Or.inr ⟨_, rfl⟩
    · obtain ⟨k, -, hc, -⟩ := pollLoop_counts _ _ _ _ _ _ run hloop
      rcases pollLoop_not_aborted _ _ (succeedProbe_not_fatal f) _ _ _ _ run hloop with h | h
      · exact Or.inl ⟨h, by omega⟩
      · exact Or.inr h

theorem C1_fatal_aborts_errors_are_retried_witness :
    Poll fatalAtOnce { timeout := EventuallyTimeoutMinute * 5,
                       interval := EventuallyIntervalSecond * 5 } =
        some { outcome := Outcome.Aborted "namespace not found", calls := 1, sleeps := 0,
               elapsed := 0 } ∧
      ∃ run, Eventually getFailsOnce (EventuallyTimeoutMinute * 5)
          (EventuallyIntervalSecond * 5) = some run ∧
        ((run.outcome = Outcome.Converged ∧ 2 ≤ run.calls) ∨
          ∃ last, run.outcome = Outcome.TimedOut last) :=
  C1_fatal_aborts_errors_are_retried fatalAtOnce getFailsOnce
    { timeout := EventuallyTimeoutMinute * 5, interval := EventuallyIntervalSecond * 5 }
    "namespace not found" "connection refused" (by decide) (by decide) (by decide)

/-- C2: for every probe that reports Success on its first call and every valid
policy (timeout > 0, interval > 0), `Poll` returns `Converged`, the probe is
invoked exactly once and no interval sleep is performed. -/
theorem C2_success_on_first_call (probe : Probe) (policy : PollPolicy)
    (hv : policy.valid) (h : (probe 0).1 = ProbeResult.Success) :
    Poll probe policy =
      some { outcome := Outcome.Converged, calls := 1, sleeps := 0,
             elapsed := (probe 0).2 } := by
  apply Poll_eq_of_pollLoop probe policy hv 1
  simp [pollLoop, h]

theorem C2_success_on_first_call_witness :
    Poll readyAtOnce { timeout := EventuallyTimeoutMinute * 5,
                       interval := EventuallyIntervalSecond * 5 } =
      some { outcome := Outcome.Converged, calls := 1, sleeps := 0, elapsed := 0 } :=
  C2_success_on_first_call readyAtOnce _ (by decide) (by decide)

/-- The calls of a probe that reports Retryable-Failure("x") on every call, under
timeout = 5 * interval: `Poll` ends `TimedOut("x")`, and a sixth call is reached
only at the exact tie where the first five calls took no time at all, so that
the fifth sleep ends on the deadline itself. -/
theorem always_retryable_calls (probe : Probe) (interval : Nat)
    (hi : 0 < interval)
    (hp : ∀ n, (probe n).1 = ProbeResult.RetryableFailure "x") :
    ∃ run, Poll probe { timeout := 5 * interval, interval := interval } = some run ∧
      run.outcome = Outcome.TimedOut "x" ∧ run.calls ≤ 6 ∧
      (run.calls = 6 ↔ ∀ n, n < 5 → (probe n).2 = 0) := by
  have hv : PollPolicy.valid { timeout := 5 * interval, interval := interval } :=
    ⟨by show 0 < 5 * interval; omega, hi⟩
  obtain ⟨run, hrun⟩ := Poll_total probe { timeout := 5 * interval, interval := interval }
  have hloop := pollLoop_of_Poll _ _ hv run hrun
  obtain ⟨k, -, hc, hk⟩ := pollLoop_counts _ _ _ _ _ _ run hloop
  simp only [] at hk
  have hk5 : k ≤ 5 := by
    rcases hk with hk | hk
    · omega
    · have h1 : k * interval ≤ 5 * interval := by omega
      exact Nat.le_of_mul_le_mul_right h1 hi
  refine ⟨run, hrun, pollLoop_always_retryable _ _ "x" hp _ _ _ _ run hloop, by omega, ?_⟩
  constructor
  · intro h6
    have hk : k = 5 := by omega
    subst hk
    rcases hk with hk | hk
    · omega
    · simp only [durationsFrom, Nat.zero_add, Nat.reduceAdd] at hk
      intro n hn
      interval_cases n <;> omega
  · intro hz
    have e : pollLoop probe { timeout := 5 * interval, interval := interval } 6 0 0 0 =
        some { outcome := Outcome.TimedOut "x", calls := 6, sleeps := 5,
               elapsed := 5 * interval + (probe 5).2 } := by
      simp only [pollLoop, hp, hz 0 (by omega), hz 1 (by omega), hz 2 (by omega),
        hz 3 (by omega), hz 4 (by omega), Nat.zero_add, Nat.add_zero, Nat.reduceAdd]
      rw [if_neg (by omega), if_neg (by omega), if_neg (by omega), if_neg (by omega),
        if_neg (by omega), if_pos (by omega)]
      simp only [Option.some.injEq, PollRun.mk.injEq, true_and]
      omega
    have e2 := Poll_eq_of_pollLoop _ _ hv 6 _ e
    rw [hrun] at e2
    cases e2
    rfl

/-- C3: for a probe that returns Retryable-Failure("x") on every call and a
policy with timeout = 5 * interval, `Poll` terminates with `TimedOut("x")` (the
last observed reason is preserved in the outcome) and the probe is invoked at
most 5 times. The probe is one whose calls take time, as every call against a
cluster does: it is enough that one of its first five calls does. -/
theorem C3_always_retryable_at_most_five (probe : Probe) (interval : Nat)
    (hi : 0 < interval)
    (hp : ∀ n, (probe n).1 = ProbeResult.RetryableFailure "x")
    (htime : ∃ n, n < 5 ∧ 0 < (probe n).2) :
    ∃ run, Poll probe { timeout := 5 * interval, interval := interval } = some run ∧
      run.outcome = Outcome.TimedOut "x" ∧ 1 ≤ run.calls ∧ run.calls ≤ 5 := by
  have hv : PollPolicy.valid { timeout := 5 * interval, interval := interval } :=
    ⟨by show 0 < 5 * interval; omega, hi⟩
  obtain ⟨run, hrun⟩ := Poll_total probe { timeout := 5 * interval, interval := interval }
  have hloop := pollLoop_of_Poll _ _ hv run hrun
  obtain ⟨k, -, hc, hk⟩ := pollLoop_counts _ _ _ _ _ _ run hloop
  simp only [] at hk
  refine ⟨run, hrun, pollLoop_always_retryable _ _ "x" hp _ _ _ _ run hloop, by omega, ?_⟩
  rcases hk with hk | hk
  · omega
  · have h1 : k * interval ≤ 5 * interval := by omega
    have hk5 : k ≤ 5 := Nat.le_of_mul_le_mul_right h1 hi
    by_contra hgt
    have hk : k = 5 := by omega
    subst hk
    simp only [durationsFrom, Nat.zero_add, Nat.reduceAdd] at hk
    obtain ⟨n, hn, hpos⟩ := htime
    interval_cases n <;> omega

theorem C3_always_retryable_at_most_five_witness :
    ∃ run, Poll alwaysXTakingTime { timeout := 5 * (EventuallyIntervalSecond * 5),
                                    interval := EventuallyIntervalSecond * 5 } = some run ∧
      run.outcome = Outcome.TimedOut "x" ∧ 1 ≤ run.calls ∧ run.calls ≤ 5 :=
  C3_always_retryable_at_most_five alwaysXTakingTime (EventuallyIntervalSecond * 5)
    (by decide) (fun _ => rfl) ⟨0, by decide, by decide⟩

/-- C4, as stated, fails: timeout >= 3 * interval does not by itself allow three
attempts. With interval 5 s and timeout 15 s, a probe whose first (failing) call
blocks for 30 s is timed out after that one call, although its third call would
have succeeded. -/
theorem C4_slow_probe_timed_out :
    Poll slowThenSuccess { timeout := 3 * (EventuallyIntervalSecond * 5),
                           interval := EventuallyIntervalSecond * 5 } =
      some { outcome := Outcome.TimedOut "not yet", calls := 1, sleeps := 0,
             elapsed := 30 * Second } := by
  decide

/-- C4, amended: for every probe that returns Retryable-Failure on its first two
calls and Success on its third, and every valid policy whose timeout allows three
attempts, which is: the time the two failing calls take plus two intervals does
not exceed the timeout, `Poll` returns `Converged` and the probe is invoked
exactly 3 times (with 2 sleeps); when the timeout does not allow them, `Poll`
returns `TimedOut` after fewer than 3 invocations. For failing calls that take
no time, timeout >= 3 * interval allows three attempts. -/
theorem C4_two_failures_then_success (probe : Probe) (policy : PollPolicy)
    (r0 r1 : String) (hv : policy.valid)
    (h0 : (probe 0).1 = ProbeResult.RetryableFailure r0)
    (h1 : (probe 1).1 = ProbeResult.RetryableFailure r1)
    (h2 : (probe 2).1 = ProbeResult.Success) :
    ((probe 0).2 + (probe 1).2 + 2 * policy.interval ≤ policy.timeout →
        Poll probe policy =
          some { outcome := Outcome.Converged, calls := 3, sleeps := 2,
                 elapsed := (probe 0).2 + (probe 1).2 + 2 * policy.interval + (probe 2).2 }) ∧
      (policy.timeout < (probe 0).2 + (probe 1).2 + 2 * policy.interval →
        ∃ run last, Poll probe policy = some run ∧ run.outcome = Outcome.TimedOut last ∧
          run.calls < 3) ∧
      ((probe 0).2 = 0 → (probe 1).2 = 0 → 3 * policy.interval ≤ policy.timeout →
        Poll probe policy =
          some { outcome := Outcome.Converged, calls := 3, sleeps := 2,
                 elapsed := 2 * policy.interval + (probe 2).2 }) := by
  have hA : (probe 0).2 + (probe 1).2 + 2 * policy.interval ≤ policy.timeout →
      Poll probe policy =
        some { outcome := Outcome.Converged, calls := 3, sleeps := 2,
               elapsed := (probe 0).2 + (probe 1).2 + 2 * policy.interval + (probe 2).2 } := by
    intro hfit
    apply Poll_eq_of_pollLoop probe policy hv 3
    simp only [pollLoop, h0, h1, h2, Nat.zero_add, Nat.reduceAdd]
    rw [if_neg (by omega), if_neg (by omega)]
    simp only [Option.some.injEq, PollRun.mk.injEq, true_and]
    omega
  refine ⟨hA, ?_, ?_⟩
  · intro hlate
    by_cases hfirst : (probe 0).2 + policy.interval > policy.timeout
    · refine ⟨{ outcome := Outcome.TimedOut r0, calls := 1, sleeps := 0,
                elapsed := (probe 0).2 }, r0, ?_, rfl, by show 1 < 3; omega⟩
      apply Poll_eq_of_pollLoop probe policy hv 1
      simp only [pollLoop, h0, Nat.zero_add]
      rw [if_pos hfirst]
    · refine ⟨{ outcome := Outcome.TimedOut r1, calls := 2, sleeps := 1,
                elapsed := (probe 0).2 + policy.interval + (probe 1).2 }, r1, ?_, rfl,
              by show 2 < 3; omega⟩
      apply Poll_eq_of_pollLoop probe policy hv 2
      simp only [pollLoop, h0, h1, Nat.zero_add, Nat.reduceAdd]
      rw [if_neg hfirst, if_pos (by omega)]
  · intro d0 d1 hfit
    have h := hA (by omega)
    rw [h]
    simp only [Option.some.injEq, PollRun.mk.injEq, true_and]
    omega

theorem C4_two_failures_then_success_witness :
    Poll thirdTimeLucky { timeout := 3 * (EventuallyIntervalSecond * 5),
                          interval := EventuallyIntervalSecond * 5 } =
      some { outcome := Outcome.Converged, calls := 3, sleeps := 2,
             elapsed := 2 * (EventuallyIntervalSecond * 5) + 0 } :=
  (C4_two_failures_then_success thirdTimeLucky
    { timeout := 3 * (EventuallyIntervalSecond * 5), interval := EventuallyIntervalSecond * 5 }
    "not yet" "not yet" (by decide) (by decide) (by decide) (by decide)).2.2
    (by decide) (by decide) (by decide)

/-- C5: for every policy with 0 < timeout < interval and every probe whose first
call is a retryable failure, exactly one probe attempt is made and `Poll`
returns `TimedOut` (with the reason of that attempt, without sleeping). -/
theorem C5_timeout_below_interval (probe : Probe) (policy : PollPolicy) (reason : String)
    (ht : 0 < policy.timeout) (hlt : policy.timeout < policy.interval)
    (h : (probe 0).1 = ProbeResult.RetryableFailure reason) :
    Poll probe policy =
      some { outcome := Outcome.TimedOut reason, calls := 1, sleeps := 0,
             elapsed := (probe 0).2 } := by
  apply Poll_eq_of_pollLoop probe policy ⟨ht, by omega⟩ 1
  simp only [pollLoop, h]
  rw [if_pos (by omega)]
  simp

theorem C5_timeout_below_interval_witness :
    Poll alwaysX { timeout := 1 * Second, interval := 5 * Second } =
      some { outcome := Outcome.TimedOut "x", calls := 1, sleeps := 0, elapsed := 0 } :=
  C5_timeout_below_interval alwaysX _ "x" (by decide) (by decide) (by decide)

/-! ## The wait-loop arguments: claims C6 and C7 -/

/-- C6: every (timeout, interval) pair passed explicitly to a wait in
observability_install_test.go and observability_reconcile_test.go, with
EventuallyTimeoutMinute = 60 s and EventuallyIntervalSecond = 1 s, satisfies the
PollPolicy invariant (interval > 0, timeout > 0, timeout > interval); the
interval is always 5 * EventuallyIntervalSecond and the timeouts are 5, 10, 15,
20 and 25 times EventuallyTimeoutMinute, each of which occurs. No product leaves
the range of `time.Duration`. -/
theorem C6_explicit_waits_satisfy_invariant :
    (∀ w ∈ installWaits ++ reconcileWaits,
        w.invariant ∧ w.interval = EventuallyIntervalSecond * 5 ∧
        w.timeout ∈ [5, 10, 15, 20, 25].map (fun k => EventuallyTimeoutMinute * k) ∧
        w.timeout ≤ maxDuration) ∧
      (∀ k ∈ [5, 10, 15, 20, 25], ∃ w ∈ installWaits ++ reconcileWaits,
        w.timeout = EventuallyTimeoutMinute * k) ∧
      EventuallyTimeoutMinute = 60 * Second ∧ EventuallyIntervalSecond = 1 * Second := by
  decide

theorem C6_explicit_waits_satisfy_invariant_witness :
    PollPolicy.invariant { timeout := EventuallyTimeoutMinute * 25,
                           interval := EventuallyIntervalSecond * 5 } :=
  (C6_explicit_waits_satisfy_invariant.1
    { timeout := EventuallyTimeoutMinute * 25, interval := EventuallyIntervalSecond * 5 }
    (by decide)).1

/-- C7: the timeout of the wait for the thanos-receive storage resize in
`installMCO`, EventuallyTimeoutMinute * 25 with EventuallyTimeoutMinute = 60 s,
is 1500 s, strictly longer than 15 minutes, which is the 900 s
terminationGracePeriodSeconds of the thanos-receive pod. -/
theorem C7_resize_timeout_exceeds_grace_period :
    installWaits.get? 1 = some { timeout := thanosReceiveResizeTimeout,
                                 interval := EventuallyIntervalSecond * 5 } ∧
      thanosReceiveResizeTimeout = 1500 * Second ∧
      15 * Minute < thanosReceiveResizeTimeout ∧
      thanosReceiveTerminationGracePeriod = 15 * Minute ∧
      thanosReceiveTerminationGracePeriod < thanosReceiveResizeTimeout := by
  decide

/-! ## The probe of "Waiting for MCO ready status": claim C8 -/

/-- C8 fails on the code where Get failed and returned no instance: the probe
func of lines 75-84 then panics on the nil pointer at line 83 instead of
returning an error. With an instance it returns a value in every case: `nil`
when Get succeeded and the status contains a condition of type Ready, and the
error built from the status otherwise. -/
theorem C8_get_error_panics {V : Type}
    (StatusContainsTypeEqualTo : Option (Unstructured V) → String → Bool)
    (sprintV : Option V → String) :
    (∀ getErr : String,
        waitingForMCOReadyStatusProbe StatusContainsTypeEqualTo sprintV none (some getErr) =
          GoResult.panicked
            "runtime error: invalid memory address or nil pointer dereference") ∧
      (∀ (u : Unstructured V) (err : Option String),
        waitingForMCOReadyStatusProbe StatusContainsTypeEqualTo sprintV (some u) err =
          GoResult.returned
            (if err = none ∧ StatusContainsTypeEqualTo (some u) "Ready" = true then none
             else some
              ("MCO componnets cannot be running in 20 minutes. check the MCO CR status for the details: "
                ++ sprintV (u.Object.lookup "status")))) := by
  constructor
  · intro getErr
    rfl
  · intro u err
    cases err with
    | none =>
      simp only [waitingForMCOReadyStatusProbe, mcoNotReadyError, true_and]
      split <;> rfl
    | some e =>
      simp [waitingForMCOReadyStatusProbe, mcoNotReadyError]

/-! ## `CheckMCOComponentsInBaiscMode`: claim C9 -/

theorem checkDeployments_eq_findSome (get : String → Except String Deployment)
    (names : List String) :
    checkDeployments get names =
      names.findSome? (fun name =>
        workloadFailure ((get name).map Deployment.ReadyReplicas)) := by
  induction names with
  | nil => rfl
  | cons name rest ih =>
    simp only [checkDeployments, List.findSome?_cons]
    cases hget : get name with
    | error err => simp [workloadFailure, Except.map]
    | ok deployment =>
      by_cases h1 : deployment.ReadyReplicas = 1
      · simp [workloadFailure, Except.map, h1, ih]
      · simp [workloadFailure, Except.map, h1]

theorem checkStatefulSets_eq_findSome (get : String → Except String StatefulSet)
    (names : List String) :
    checkStatefulSets get names =
      names.findSome? (fun name =>
        workloadFailure ((get name).map StatefulSet.ReadyReplicas)) := by
  induction names with
  | nil => rfl
  | cons name rest ih =>
    simp only [checkStatefulSets, List.findSome?_cons]
    cases hget : get name with
    | error err => simp [workloadFailure, Except.map]
    | ok statefulset =>
      by_cases h1 : statefulset.ReadyReplicas = 1
      · simp [workloadFailure, Except.map, h1, ih]
      · simp [workloadFailure, Except.map, h1]

theorem workloadFailure_eq_none (r : Except String Int) :
    workloadFailure r = none ↔ r = Except.ok 1 := by
  cases r with
  | error err => simp [workloadFailure]
  | ok n =>
    by_cases h : n = 1
    · simp [workloadFailure, h]
    · simp [workloadFailure, h]

/-- C9: `CheckMCOComponentsInBaiscMode` returns nil if and only if each of the 7
listed deployments and each of the 8 listed statefulsets is retrieved without
error and reports exactly 1 ready replica; otherwise it returns the error of the
first failing workload in list order (all deployments before all statefulsets),
where a retrieval error is returned unchanged and a wrong count n yields the
error "Expect 1 but got n ready replicas". -/
theorem C9_check_components_basic_mode (deployments : String → Except String Deployment)
    (statefulsets : String → Except String StatefulSet) :
    CheckMCOComponentsInBaiscMode deployments statefulsets =
        firstFailure deployments statefulsets workloadsInOrder ∧
      (CheckMCOComponentsInBaiscMode deployments statefulsets = none ↔
        (∀ name ∈ expectedDeploymentNames,
            (deployments name).map Deployment.ReadyReplicas = Except.ok 1) ∧
          (∀ name ∈ expectedStatefulSetNames,
            (statefulsets name).map StatefulSet.ReadyReplicas = Except.ok 1)) ∧
      expectedDeploymentNames.length = 7 ∧ expectedStatefulSetNames.length = 8 ∧
      (∀ n : Int, workloadFailure (Except.ok n) =
        if n = 1 then none
        else some ("Expect 1 but got " ++ toString n ++ " ready replicas")) ∧
      (∀ err : String, workloadFailure (Except.error err) = some err) := by
  have hmain : CheckMCOComponentsInBaiscMode deployments statefulsets =
      firstFailure deployments statefulsets workloadsInOrder := by
    unfold CheckMCOComponentsInBaiscMode firstFailure workloadsInOrder
    rw [List.findSome?_append, List.findSome?_map, List.findSome?_map,
      checkDeployments_eq_findSome, checkStatefulSets_eq_findSome]
    have e1 : (fun w => workloadFailure (readyReplicasOf deployments statefulsets w)) ∘
        Workload.deployment =
        fun name => workloadFailure ((deployments name).map Deployment.ReadyReplicas) := rfl
    have e2 : (fun w => workloadFailure (readyReplicasOf deployments statefulsets w)) ∘
        Workload.statefulset =
        fun name => workloadFailure ((statefulsets name).map StatefulSet.ReadyReplicas) := rfl
    rw [e1, e2]
    cases List.findSome? (fun name =>
        workloadFailure ((deployments name).map Deployment.ReadyReplicas))
        expectedDeploymentNames with
    | some err => rfl
    | none =>
      cases List.findSome? (fun name =>
        workloadFailure ((statefulsets name).map StatefulSet.ReadyReplicas))
        expectedStatefulSetNames <;> rfl
  refine ⟨hmain, ?_, rfl, rfl, fun n => rfl, fun err => rfl⟩
  rw [hmain]
  unfold firstFailure workloadsInOrder
  simp only [List.findSome?_eq_none_iff, List.mem_append, List.mem_map,
    workloadFailure_eq_none]
  constructor
  · intro h
    exact ⟨fun name hn => h _ (Or.inl ⟨name, hn, rfl⟩),
      fun name hn => h _ (Or.inr ⟨name, hn, rfl⟩)⟩
  · rintro ⟨hd, hs⟩ w (⟨name, hn, rfl⟩ | ⟨name, hn, rfl⟩)
    · exact hd name hn
    · exact hs name hn

theorem C9_check_components_basic_mode_witness :
    CheckMCOComponentsInBaiscMode grafanaNotReady statefulSetsUnreachable =
      some "Expect 1 but got 0 ready replicas" :=
  (C9_check_components_basic_mode grafanaNotReady statefulSetsUnreachable).1.trans
    (by decide)

/-! ## `CreateObjSecret`: claim C10 -/

theorem Getenv_eq_empty (env : String → Option String) (key : String) :
    Getenv env key = "" ↔ env key = none ∨ env key = some "" := by
  unfold Getenv
  cases env key with
  | none => simp
  | some v => simp

/-- C10: `CreateObjSecret` returns one of its four "failed to get ... env"
errors, without calling Apply, if and only if at least one of the environment
variables BUCKET, REGION, ACCESSKEY, SECRETKEY is unset or empty; the error
returned names the first empty variable in that order. When all four are
non-empty it returns exactly the result of Apply on the rendered secret
manifest (Apply being called once, with that manifest). -/
theorem C10_create_obj_secret (env : String → Option String)
    (Apply : String → String → String → String → Option String)
    (url kubeconfig context : String) :
    (((CreateObjSecret env Apply url kubeconfig context).applied = [] ∧
          ∃ p ∈ envErrors,
            (CreateObjSecret env Apply url kubeconfig context).err = some p.2) ↔
        ∃ key ∈ ["BUCKET", "REGION", "ACCESSKEY", "SECRETKEY"],
          env key = none ∨ env key = some "") ∧
      (∀ msg, firstEmptyEnvError env = some msg →
        CreateObjSecret env Apply url kubeconfig context =
          { err := some msg, applied := [] }) ∧
      (firstEmptyEnvError env = none →
        CreateObjSecret env Apply url kubeconfig context =
          { err := Apply url kubeconfig context
              (objSecretManifest (Getenv env "BUCKET") (Getenv env "REGION")
                (Getenv env "ACCESSKEY") (Getenv env "SECRETKEY")),
            applied := [objSecretManifest (Getenv env "BUCKET") (Getenv env "REGION")
                (Getenv env "ACCESSKEY") (Getenv env "SECRETKEY")] }) ∧
      envErrors =
        [ ("BUCKET", "failed to get s3 BUCKET env"),
          ("REGION", "failed to get s3 REGION env"),
          ("ACCESSKEY", "failed to get aws ACCESSKEY env"),
          ("SECRETKEY", "failed to get aws SECRETKEY env") ] := by
  simp only [← Getenv_eq_empty]
  by_cases hb : Getenv env "BUCKET" = ""
  · simp [CreateObjSecret, firstEmptyEnvError, envErrors, hb]
  · by_cases hr : Getenv env "REGION" = ""
    · simp [CreateObjSecret, firstEmptyEnvError, envErrors, hb, hr]
    · by_cases ha : Getenv env "ACCESSKEY" = ""
      · simp [CreateObjSecret, firstEmptyEnvError, envErrors, hb, hr, ha]
      · by_cases hs : Getenv env "SECRETKEY" = ""
        · simp [CreateObjSecret, firstEmptyEnvError, envErrors, hb, hr, ha, hs]
        · simp [CreateObjSecret, firstEmptyEnvError, envErrors, hb, hr, ha, hs]

theorem C10_create_obj_secret_witness :
    CreateObjSecret envWithoutRegion applyOk "https://hub:6443" "kubeconfig" "" =
      { err := some "failed to get s3 REGION env", applied := [] } :=
  (C10_create_obj_secret envWithoutRegion applyOk "https://hub:6443" "kubeconfig" "").2.1
    "failed to get s3 REGION env" (by decide)

/-! ## `UninstallMCO`: claim C11 -/

/-- C11: `UninstallMCO` performs three deletions in a fixed order: the MCO
instance, then the pull secret multiclusterhub-operator-pull-secret, then the
object storage secret thanos-object-storage, both secrets in the MCO namespace.
It stops at the first failure: it returns nil if and only if all three deletions
succeed, otherwise it returns the error of the first failing deletion unchanged
and no later deletion is attempted. -/
theorem C11_uninstall_stops_at_first_failure {σ : Type} (c : Cluster σ) (s s1 s2 s3 : σ)
    (e1 e2 e3 : Option String)
    (h1 : c.Delete { Group := "observability.open-cluster-management.io",
                     Version := "v1beta1", Resource := "multiclusterobservabilities" }
            "observability" s = (e1, s1))
    (h2 : c.DeleteSecret "open-cluster-management-observability"
            "multiclusterhub-operator-pull-secret" s1 = (e2, s2))
    (h3 : c.DeleteSecret "open-cluster-management-observability"
            "thanos-object-storage" s2 = (e3, s3)) :
    (∀ err, e1 = some err →
        UninstallMCO (recorded c) ([], s) =
          (some err, ([Request.delete NewMCOGVR "observability"], s1))) ∧
      (∀ err, e1 = none → e2 = some err →
        UninstallMCO (recorded c) ([], s) =
          (some err, ([Request.delete NewMCOGVR "observability",
                       Request.deleteSecret MCO_NAMESPACE MCO_PULL_SECRET_NAME], s2))) ∧
      (e1 = none → e2 = none →
        UninstallMCO (recorded c) ([], s) =
          (e3, ([Request.delete NewMCOGVR "observability",
                 Request.deleteSecret MCO_NAMESPACE MCO_PULL_SECRET_NAME,
                 Request.deleteSecret MCO_NAMESPACE OBJ_SECRET_NAME], s3))) ∧
      ((UninstallMCO (recorded c) ([], s)).1 = none ↔ e1 = none ∧ e2 = none ∧ e3 = none) ∧
      (UninstallMCO c s).1 = (UninstallMCO (recorded c) ([], s)).1 := by
  have g1 : c.Delete NewMCOGVR "observability" s = (e1, s1) := h1
  have g2 : c.DeleteSecret MCO_NAMESPACE MCO_PULL_SECRET_NAME s1 = (e2, s2) := h2
  have g3 : c.DeleteSecret MCO_NAMESPACE OBJ_SECRET_NAME s2 = (e3, s3) := h3
  cases e1 with
  | some err1 =>
    simp [UninstallMCO, DeleteMCOInstance, recorded, g1]
  | none =>
    cases e2 with
    | some err2 =>
      simp [UninstallMCO, DeleteMCOInstance, recorded, g1, g2]
    | none =>
      cases e3 with
      | some err3 => simp [UninstallMCO, DeleteMCOInstance, recorded, g1, g2, g3]
      | none => simp [UninstallMCO, DeleteMCOInstance, recorded, g1, g2, g3]

theorem C11_uninstall_stops_at_first_failure_witness :
    UninstallMCO (recorded clusterWithoutPullSecret) ([], ()) =
      (some "secret multiclusterhub-operator-pull-secret not found",
        ([Request.delete NewMCOGVR "observability",
          Request.deleteSecret MCO_NAMESPACE MCO_PULL_SECRET_NAME], ())) :=
  (C11_uninstall_stops_at_first_failure clusterWithoutPullSecret () () () () none
    (some "secret multiclusterhub-operator-pull-secret not found") none
    rfl rfl rfl).2.1 _ rfl rfl

/-! ## `ModifyMCOAvailabilityConfig` and `ModifyMCORetentionResolutionRaw`: claim C12 -/

theorem lookup_mapSet {V : Type} (key : String) (value : V) (l : List (String × V))
    (k : String) :
    (mapSet key value l).lookup k = if k = key then some value else l.lookup k := by
  induction l with
  | nil =>
    by_cases hk : k = key
    · simp [mapSet, List.lookup, hk]
    · have hb : (k == key) = false := by simpa using hk
      simp [mapSet, List.lookup, hk, hb]
  | cons p rest ih =>
    obtain ⟨k2, v2⟩ := p
    by_cases h2 : k2 = key
    · by_cases hk : k = key
      · simp [mapSet, List.lookup, h2, hk]
      · have hb : (k == key) = false := by simpa using hk
        simp [mapSet, List.lookup, h2, hk, hb]
    · by_cases hk2 : k = k2
      · have hk : ¬ k = key := by rw [hk2]; exact h2
        simp [mapSet, List.lookup, h2, hk2]
      · simp only [mapSet, h2, if_false, List.lookup, ih]
        have hb : (k == k2) = false := by simpa using hk2
        rw [hb]

/-- The object that the two functions pass to Update differs from the fetched
one in the one key of `spec` only. -/
theorem equalsExceptSpecKey_mapSet (key : String) (value : Value)
    (mco : Unstructured Value) (spec : List (String × Value))
    (hspec : mco.Object.lookup "spec" = some (Value.map spec)) :
    equalsExceptSpecKey key value mco
      { Object := mapSet "spec" (Value.map (mapSet key value spec)) mco.Object } := by
  refine ⟨spec, mapSet key value spec, hspec, ?_, ?_, ?_, ?_⟩
  · simp [lookup_mapSet]
  · simp [lookup_mapSet]
  · intro k hk
    simp [lookup_mapSet, hk]
  · intro k hk
    simp [lookup_mapSet, hk]

/-- C12: for `ModifyMCOAvailabilityConfig` and `ModifyMCORetentionResolutionRaw`:
when Get succeeds on an object whose spec is a map, exactly one Update is
issued, the object passed to it equals the fetched object except that
spec.availabilityConfig is "Basic" (respectively spec.retentionResolutionRaw is
"3d"), every other spec key and every other top-level field being unchanged, and
the function returns Update's error; when Get fails, no Update is issued and
Get's error is returned unchanged. -/
theorem C12_modify_changes_one_spec_key {σ : Type} (c : Cluster σ) (s s1 : σ)
    (got : Except String (Unstructured Value))
    (hget : c.Get { Group := "observability.open-cluster-management.io",
                    Version := "v1beta1", Resource := "multiclusterobservabilities" }
              "observability" s = (got, s1)) :
    (∀ getErr, got = Except.error getErr →
        ModifyMCOAvailabilityConfig (recorded c) ([], s) =
            (GoResult.returned (some getErr), ([Request.get NewMCOGVR "observability"], s1)) ∧
          ModifyMCORetentionResolutionRaw (recorded c) ([], s) =
            (GoResult.returned (some getErr), ([Request.get NewMCOGVR "observability"], s1))) ∧
      (∀ mco spec, got = Except.ok mco → mco.Object.lookup "spec" = some (Value.map spec) →
        (∃ upd, equalsExceptSpecKey "availabilityConfig" (Value.str "Basic") mco upd ∧
          ModifyMCOAvailabilityConfig (recorded c) ([], s) =
            (GoResult.returned (c.Update NewMCOGVR upd s1).1,
              ([Request.get NewMCOGVR "observability", Request.update NewMCOGVR upd],
                (c.Update NewMCOGVR upd s1).2))) ∧
        (∃ upd, equalsExceptSpecKey "retentionResolutionRaw" (Value.str "3d") mco upd ∧
          ModifyMCORetentionResolutionRaw (recorded c) ([], s) =
            (GoResult.returned (c.Update NewMCOGVR upd s1).1,
              ([Request.get NewMCOGVR "observability", Request.update NewMCOGVR upd],
                (c.Update NewMCOGVR upd s1).2)))) := by
  have g : c.Get NewMCOGVR "observability" s = (got, s1) := hget
  constructor
  · intro getErr hgot
    subst hgot
    simp [ModifyMCOAvailabilityConfig, ModifyMCORetentionResolutionRaw, recorded, MCO_CR_NAME, g]
  · intro mco spec hgot hspec
    subst hgot
    constructor
    · refine ⟨_, equalsExceptSpecKey_mapSet "availabilityConfig" (Value.str "Basic") mco spec
        hspec, ?_⟩
      simp only [ModifyMCOAvailabilityConfig, recorded, MCO_CR_NAME, g, hspec, assertMap]
      cases hu : (c.Update NewMCOGVR
          { Object := mapSet "spec"
              (Value.map (mapSet "availabilityConfig" (Value.str "Basic") spec)) mco.Object }
          s1).1 <;> simp [hu, MCO_CR_NAME]
    · refine ⟨_, equalsExceptSpecKey_mapSet "retentionResolutionRaw" (Value.str "3d") mco spec
        hspec, ?_⟩
      simp only [ModifyMCORetentionResolutionRaw, recorded, MCO_CR_NAME, g, hspec, assertMap]
      cases hu : (c.Update NewMCOGVR
          { Object := mapSet "spec"
              (Value.map (mapSet "retentionResolutionRaw" (Value.str "3d") spec)) mco.Object }
          s1).1 <;> simp [hu, MCO_CR_NAME]

theorem C12_modify_changes_one_spec_key_witness :
    (∃ upd, equalsExceptSpecKey "availabilityConfig" (Value.str "Basic") mcoInHighMode upd ∧
        ModifyMCOAvailabilityConfig (recorded clusterWithMCO) ([], mcoInHighMode) =
          (GoResult.returned (clusterWithMCO.Update NewMCOGVR upd mcoInHighMode).1,
            ([Request.get NewMCOGVR "observability", Request.update NewMCOGVR upd],
              (clusterWithMCO.Update NewMCOGVR upd mcoInHighMode).2))) ∧
      (∃ upd, equalsExceptSpecKey "retentionResolutionRaw" (Value.str "3d") mcoInHighMode upd ∧
        ModifyMCORetentionResolutionRaw (recorded clusterWithMCO) ([], mcoInHighMode) =
          (GoResult.returned (clusterWithMCO.Update NewMCOGVR upd mcoInHighMode).1,
            ([Request.get NewMCOGVR "observability", Request.update NewMCOGVR upd],
              (clusterWithMCO.Update NewMCOGVR upd mcoInHighMode).2))) :=
  (C12_modify_changes_one_spec_key clusterWithMCO mcoInHighMode mcoInHighMode
    (Except.ok mcoInHighMode) rfl).2 mcoInHighMode highModeSpec rfl rfl

end ObservabilityE2E
